import Mathlib

/-!
Shallow embedding of the Interview Session Orchestrator of the
AI-excel-mock-interviewer backend (Python), together with theorems settling
the specification claims about it.

Embedded modules:
* services/llm_service.py       (evaluate_excel_response, _get_fallback_evaluation)
* services/excel_evaluator.py   (evaluate_response, _enhance_evaluation,
                                 _calculate_score_adjustments, _calculate_confidence,
                                 _get_fallback_evaluation, cache)
* services/question_bank.py     (get_random_question, get_adaptive_question,
                                 update_question_stats)
* services/conversation_manager.py (process_response, _adjust_difficulty,
                                 _should_continue_interview, _end_interview,
                                 start_interview, pause_interview)
* services/feedback_engine.py   (generate_final_assessment,
                                 _calculate_performance_statistics,
                                 _determine_skill_level, _determine_hire_recommendation,
                                 _get_default_assessment)
* Models/question.py            (ExcelQuestion.update_usage_stats)

Numbers are modelled by ℚ (the Python code computes on int/float; the claims
under scrutiny concern exact arithmetic identities and comparisons against
integer thresholds, none of which exercise float-specific behaviour).
Nondeterminism of random.choice is modelled by an explicit choice index.
The blocking LLM call is modelled by an explicit provider-outcome argument.
-/

namespace ExcelInterviewer

/-! ## Numeric helpers -/

/-- Arithmetic mean of a list of rationals; callers guard against `[]`
(mirrors Python `sum(xs) / len(xs)`). -/
def listMean (l : List ℚ) : ℚ := l.sum / l.length

/-- Python `round` ties-to-even rounding of a rational to an integer. -/
def pyRoundInt (x : ℚ) : ℤ :=
  let f := ⌊x⌋
  let frac := x - f
  if frac < 1/2 then f
  else if 1/2 < frac then f + 1
  else if f % 2 = 0 then f else f + 1

/-- Python `round(x, 2)`: round to 2 decimal places, ties to even. -/
def round2 (x : ℚ) : ℚ := (pyRoundInt (100 * x) : ℚ) / 100

/-- `max 0 (min 100 s)`: the clamp to [0, 100] used throughout the evaluator. -/
def clamp100 (s : ℚ) : ℚ := max 0 (min 100 s)

/-! ## Core enumerations (Models/question.py, Models/interview.py, Models/evaluation.py) -/

/-- `QuestionDifficulty` enum: basic | intermediate | advanced. -/
inductive QuestionDifficulty
  | basic
  | intermediate
  | advanced
deriving DecidableEq, Repr

/-- `InterviewStatus` enum. -/
inductive InterviewStatus
  | pending
  | inProgress
  | completed
  | cancelled
  | paused
  | expired
deriving DecidableEq, Repr

/-- `HireRecommendation` enum. -/
inductive HireRecommendation
  | strongHire
  | hire
  | conditionalHire
  | noHire
  | strongNoHire
deriving DecidableEq, Repr

/-- `SkillAssessment` enum. -/
inductive SkillAssessment
  | expert
  | advanced
  | intermediate
  | basic
  | beginner
  | insufficientData
deriving DecidableEq, Repr

/-- The value string of a difficulty (used in generated feedback text). -/
def QuestionDifficulty.value : QuestionDifficulty → String
  | .basic => "basic"
  | .intermediate => "intermediate"
  | .advanced => "advanced"

/-! ## Evaluation record

The evaluation dict produced by the pipeline.  `evaluationMethod` and
`evaluationTime` model the keys `evaluation_method` / `evaluation_time`,
which are absent (`none`) in dicts that never had them set. -/

structure Evaluation where
  technicalAccuracy : ℚ
  communicationClarity : ℚ
  problemSolvingApproach : ℚ
  completeness : ℚ
  efficiency : ℚ
  overallScore : ℚ
  feedback : String
  strengths : List String
  areasForImprovement : List String
  nextDifficultyLevel : QuestionDifficulty
  confidenceScore : Option ℚ
  evaluationMethod : Option String
  evaluationTime : Option ℚ
deriving DecidableEq, Repr

/-- Sum of the five sub-scores of an evaluation. -/
def Evaluation.subScoreSum (e : Evaluation) : ℚ :=
  e.technicalAccuracy + e.communicationClarity + e.problemSolvingApproach +
    e.completeness + e.efficiency

/-! ## LLM service (services/llm_service.py) -/

/-- The structured fields parsed from the provider JSON; `none` models a
missing key. -/
structure ParsedEvaluation where
  technicalAccuracy : Option ℚ
  communicationClarity : Option ℚ
  problemSolvingApproach : Option ℚ
  completeness : Option ℚ
  efficiency : Option ℚ
  overallScore : Option ℚ
  feedback : Option String
  strengths : Option (List String)
  areasForImprovement : Option (List String)
  nextDifficultyLevel : Option QuestionDifficulty
deriving DecidableEq, Repr

/-- Outcome of one call to the Language Model Provider:
the provider raised, its response failed to parse as JSON, or it parsed
into a (possibly incomplete) structure. -/
inductive ProviderOutcome
  | providerError
  | malformedJson
  | parsed (p : ParsedEvaluation)
deriving DecidableEq, Repr

/-- `for field in required_fields: if field not in evaluation: raise ValueError`. -/
def ParsedEvaluation.missingRequiredField (p : ParsedEvaluation) : Bool :=
  p.technicalAccuracy.isNone || p.communicationClarity.isNone ||
  p.problemSolvingApproach.isNone || p.completeness.isNone ||
  p.efficiency.isNone || p.overallScore.isNone || p.feedback.isNone ||
  p.strengths.isNone || p.areasForImprovement.isNone ||
  p.nextDifficultyLevel.isNone

/-- `LLMService._get_fallback_evaluation`: `base_scores = {"basic": 65,
"intermediate": 55, "advanced": 45}`. -/
def llmBaseScore : QuestionDifficulty → ℚ
  | .basic => 65
  | .intermediate => 55
  | .advanced => 45

/-- `LLMService._get_fallback_evaluation(difficulty)`. -/
def llmFallbackEvaluation (difficulty : QuestionDifficulty) : Evaluation :=
  let baseScore := llmBaseScore difficulty
  { technicalAccuracy := baseScore
    communicationClarity := baseScore
    problemSolvingApproach := baseScore
    completeness := baseScore
    efficiency := baseScore
    overallScore := baseScore
    feedback := "Unable to fully evaluate response due to technical issues. Based on "
      ++ difficulty.value
      ++ " level expectations, this appears to be a reasonable attempt. Please provide more specific Excel details for better assessment."
    strengths := ["Attempted to answer the question", "Showed understanding of the problem"]
    areasForImprovement :=
      ["Provide specific Excel formulas and functions",
       "Explain step-by-step process",
       "Include practical examples"]
    nextDifficultyLevel := difficulty
    confidenceScore := none
    evaluationMethod := none
    evaluationTime := none }

/-- In-range check from `evaluate_excel_response`: a score is replaced by its
clamp only when it is outside [0, 100] (equivalent to always clamping). -/
def validateScore (s : ℚ) : ℚ := if s < 0 ∨ 100 < s then clamp100 s else s

/-- `LLMService.evaluate_excel_response`: on provider error, JSON parse error
or a missing required field the fallback evaluation is returned; otherwise
every score field is clamped to [0, 100] and `overall_score` is recomputed as
`round(sum(scores) / len(scores), 2)` over the five sub-scores. -/
def evaluateExcelResponse (outcome : ProviderOutcome)
    (difficulty : QuestionDifficulty) : Evaluation :=
  match outcome with
  | .providerError => llmFallbackEvaluation difficulty
  | .malformedJson => llmFallbackEvaluation difficulty
  | .parsed p =>
    if p.missingRequiredField then llmFallbackEvaluation difficulty
    else
      let t := validateScore (p.technicalAccuracy.getD 0)
      let c := validateScore (p.communicationClarity.getD 0)
      let ps := validateScore (p.problemSolvingApproach.getD 0)
      let comp := validateScore (p.completeness.getD 0)
      let eff := validateScore (p.efficiency.getD 0)
      { technicalAccuracy := t
        communicationClarity := c
        problemSolvingApproach := ps
        completeness := comp
        efficiency := eff
        overallScore := round2 ((t + c + ps + comp + eff) / 5)
        feedback := p.feedback.getD ""
        strengths := p.strengths.getD []
        areasForImprovement := p.areasForImprovement.getD []
        nextDifficultyLevel := p.nextDifficultyLevel.getD difficulty
        confidenceScore := none
        evaluationMethod := none
        evaluationTime := none }

/-! ## Excel evaluator (services/excel_evaluator.py)

`_perform_local_analysis` is deterministic string scanning; its output is
modelled by the indicator record below, which the score-adjustment and
confidence computations consume exactly as in the source. -/

structure LocalAnalysis where
  wordCount : ℕ
  excelFunctionsMentioned : List String
  keywordDensity : ℚ
  mentionsFormulas : Bool
  mentionsSteps : Bool
  mentionsSpecificFunctions : Bool
  mentionsCellReferences : Bool
  mentionsRanges : Bool
  usesExplanation : Bool
  providesExamples : Bool
  structuredResponse : Bool
  appropriateLength : Bool
  addressesHow : Bool
  addressesWhat : Bool
  addressesWhen : Bool
  providesAlternatives : Bool
deriving DecidableEq, Repr

/-- Per-dimension score adjustments computed by
`_calculate_score_adjustments`. -/
structure Adjustments where
  technicalAccuracy : ℚ
  communicationClarity : ℚ
  problemSolvingApproach : ℚ
  completeness : ℚ
  efficiency : ℚ
deriving DecidableEq, Repr

def boolScore (b : Bool) : ℚ := if b then 1 else 0

/-- `ExcelEvaluator._calculate_score_adjustments`. -/
def calculateScoreAdjustments (analysis : LocalAnalysis) : Adjustments :=
  let techAdj := (if analysis.mentionsSpecificFunctions then (5:ℚ) else 0) +
    (if analysis.mentionsCellReferences then 3 else 0) +
    (if analysis.mentionsRanges then 2 else 0)
  let commAdj := (if analysis.usesExplanation then (4:ℚ) else 0) +
    (if analysis.providesExamples then 3 else 0) +
    (if analysis.structuredResponse then 2 else 0) +
    (if analysis.appropriateLength then 0 else -5)
  let psAdj := (if analysis.mentionsSteps then (4:ℚ) else 0) +
    (if analysis.keywordDensity > 1/10 then 2 else 0)
  let compAdj := (boolScore analysis.addressesHow + boolScore analysis.addressesWhat +
    boolScore analysis.addressesWhen + boolScore analysis.providesAlternatives) * 2
  { technicalAccuracy := techAdj
    communicationClarity := commAdj
    problemSolvingApproach := psAdj
    completeness := compAdj
    efficiency := 0 }

/-- `ExcelEvaluator._calculate_confidence`. -/
def calculateConfidence (analysis : LocalAnalysis) : ℚ :=
  let lengthFactor : ℚ :=
    if 30 ≤ analysis.wordCount ∧ analysis.wordCount ≤ 150 then 9/10
    else if 15 ≤ analysis.wordCount ∧ analysis.wordCount ≤ 200 then 7/10
    else 1/2
  let technicalFactor : ℚ :=
    if analysis.excelFunctionsMentioned.length > 0 then 8/10 else 6/10
  round2 ((lengthFactor + technicalFactor) / 2)

/-- One dimension of the blend step: `original + min(15, max(-15, adjustment))`
clamped to [0, 100]. -/
def applyAdjustment (original adjustment : ℚ) : ℚ :=
  max 0 (min 100 (original + min 15 (max (-15) adjustment)))

/-- `ExcelEvaluator._enhance_evaluation`: blend the heuristic adjustments into
the AI evaluation, then recompute `overall_score` as
`round(sum(scores) / len(scores), 2)` and attach the confidence score. -/
def enhanceEvaluation (aiEvaluation : Evaluation) (analysis : LocalAnalysis) : Evaluation :=
  let adjustments := calculateScoreAdjustments analysis
  let t := applyAdjustment aiEvaluation.technicalAccuracy adjustments.technicalAccuracy
  let c := applyAdjustment aiEvaluation.communicationClarity adjustments.communicationClarity
  let ps := applyAdjustment aiEvaluation.problemSolvingApproach adjustments.problemSolvingApproach
  let comp := applyAdjustment aiEvaluation.completeness adjustments.completeness
  let eff := applyAdjustment aiEvaluation.efficiency adjustments.efficiency
  { aiEvaluation with
    technicalAccuracy := t
    communicationClarity := c
    problemSolvingApproach := ps
    completeness := comp
    efficiency := eff
    overallScore := round2 ((t + c + ps + comp + eff) / 5)
    confidenceScore := some (calculateConfidence analysis) }

/-- `ExcelEvaluator._get_fallback_evaluation`: `base_scores = {"basic": 60,
"intermediate": 50, "advanced": 40}`, used only when the evaluator body itself
raises (the LLM fallback is handled inside `evaluateExcelResponse`). -/
def evaluatorBaseScore : QuestionDifficulty → ℚ
  | .basic => 60
  | .intermediate => 50
  | .advanced => 40

def evaluatorFallbackEvaluation (difficulty : QuestionDifficulty) : Evaluation :=
  let baseScore := evaluatorBaseScore difficulty
  { technicalAccuracy := baseScore
    communicationClarity := baseScore - 5
    problemSolvingApproach := baseScore
    completeness := baseScore - 10
    efficiency := baseScore - 5
    overallScore := baseScore - 5
    feedback := "Unable to fully evaluate response due to technical issues. Based on "
      ++ difficulty.value
      ++ " level expectations, this appears to be a reasonable attempt. Please provide more specific Excel details for better assessment."
    strengths := ["Attempted to answer the question"]
    areasForImprovement :=
      ["Provide specific Excel formulas and functions",
       "Explain step-by-step process clearly",
       "Include practical examples and use cases"]
    nextDifficultyLevel := difficulty
    confidenceScore := some (3/10)
    evaluationMethod := some "fallback"
    evaluationTime := none }

/-- Cache key: `f"{hash(question)}_{hash(response)}_{difficulty}"`, i.e. the
evaluation is content-addressed by the (question, answer, difficulty) triple
(hash collisions are out of scope of the model). -/
def CacheKey : Type := String × String × QuestionDifficulty

instance : DecidableEq CacheKey := by
  unfold CacheKey
  infer_instance

/-- The evaluator's in-process `evaluation_cache`. -/
structure EvaluatorState where
  cache : List (CacheKey × Evaluation)
deriving DecidableEq

def EvaluatorState.lookup (st : EvaluatorState) (key : CacheKey) : Option Evaluation :=
  (st.cache.find? (fun kv => kv.1 = key)).map (·.2)

/-- `ExcelEvaluator.evaluate_response`: cache check, local analysis, AI
evaluation, blend, cache fill.  The provider outcome, analysis result and
elapsed evaluation time are explicit inputs.  On a cache hit the stored copy
is returned with `evaluation_method` set to `"cached"`; on a miss the blended
result is cached *before* `evaluation_time` / `evaluation_method` are attached
to the returned dict. -/
def evaluateResponse (st : EvaluatorState) (questionText candidateResponse : String)
    (difficulty : QuestionDifficulty) (outcome : ProviderOutcome)
    (analysis : LocalAnalysis) (evaluationTime : ℚ) :
    Evaluation × EvaluatorState :=
  let cacheKey : CacheKey := (questionText, candidateResponse, difficulty)
  match st.lookup cacheKey with
  | some cachedResult =>
    ({ cachedResult with evaluationMethod := some "cached" }, st)
  | none =>
    let aiEvaluation := evaluateExcelResponse outcome difficulty
    let enhancedEvaluation := enhanceEvaluation aiEvaluation analysis
    ({ enhancedEvaluation with
        evaluationTime := some evaluationTime
        evaluationMethod := some "ai_enhanced" },
     { cache := (cacheKey, enhancedEvaluation) :: st.cache })

/-! ## Question bank (services/question_bank.py, Models/question.py) -/

/-- The fields of `ExcelQuestion` relevant to selection and usage statistics.
Textual metadata not consumed by the orchestrator logic is omitted. -/
structure ExcelQuestion where
  id : String
  questionText : String
  difficulty : QuestionDifficulty
  isActive : Bool
  timesUsed : ℕ
  averageScore : Option ℚ
  passRate : Option ℚ
  averageResponseTime : Option ℚ
deriving DecidableEq, Repr

/-- `ExcelQuestion.update_usage_stats`: running average score, running
average response time, and running pass rate at the 60-point threshold. -/
def ExcelQuestion.updateUsageStats (q : ExcelQuestion) (score responseTime : ℚ) :
    ExcelQuestion :=
  let timesUsed := q.timesUsed + 1
  let averageScore : ℚ :=
    match q.averageScore with
    | none => score
    | some avg => (avg * (timesUsed - 1) + score) / timesUsed
  let averageResponseTime : ℚ :=
    match q.averageResponseTime with
    | none => responseTime
    | some avg => (avg * (timesUsed - 1) + responseTime) / timesUsed
  let passRate : ℚ :=
    if score ≥ 60 then
      match q.passRate with
      | none => 100
      | some rate => ((rate / 100) * (timesUsed - 1) + 1) / timesUsed * 100
    else
      match q.passRate with
      | none => 0
      | some rate => ((rate / 100) * (timesUsed - 1)) / timesUsed * 100
  { q with
    timesUsed := timesUsed
    averageScore := some averageScore
    averageResponseTime := some averageResponseTime
    passRate := some passRate }

/-- `QuestionBankService.update_question_stats`: update the stats of the
question with the given id (no-op when the id is unknown). -/
def updateQuestionStats (questions : List ExcelQuestion) (questionId : String)
    (score responseTime : ℚ) : List ExcelQuestion :=
  questions.map (fun q =>
    if q.id = questionId then q.updateUsageStats score responseTime else q)

/-- `QuestionBankService.get_random_question` restricted to the filters the
orchestrator uses (difficulty and exclusion list).  `random.choice` is
modelled by the explicit index `choice`, reduced modulo the filtered list
length, so the result is `none` exactly when no question matches. -/
def getRandomQuestion (questions : List ExcelQuestion)
    (difficulty : Option QuestionDifficulty) (excludeIds : List String)
    (choice : ℕ) : Option ExcelQuestion :=
  let filteredQuestions := questions.filter (fun q =>
    q.isActive &&
    (match difficulty with
     | some d => decide (q.difficulty = d)
     | none => true) &&
    !excludeIds.contains q.id)
  if filteredQuestions.isEmpty then none
  else filteredQuestions[choice % filteredQuestions.length]?

/-- `difficulty_order[max(0, current_index - 1)]`: one tier down, floored at
basic. -/
def QuestionDifficulty.demote : QuestionDifficulty → QuestionDifficulty
  | .basic => .basic
  | .intermediate => .basic
  | .advanced => .intermediate

def QuestionDifficulty.index : QuestionDifficulty → ℤ
  | .basic => 0
  | .intermediate => 1
  | .advanced => 2

def difficultyAtIndex (i : ℤ) : Option QuestionDifficulty :=
  if i = 0 then some .basic
  else if i = 1 then some .intermediate
  else if i = 2 then some .advanced
  else none

/-- Python `previous_scores[-3:]`: the last (up to) 3 scores. -/
def lastThree (scores : List ℚ) : List ℚ := scores.drop (scores.length - 3)

/-- The target-difficulty computation at the top of
`QuestionBankService.get_adaptive_question`: with at least one prior score,
a last-3 mean ≥ 85 targets advanced, ≥ 70 targets intermediate, ≥ 50 holds
the current tier, and below 50 drops one tier (floored at basic). -/
def adaptiveTargetDifficulty (currentDifficulty : QuestionDifficulty)
    (previousScores : List ℚ) : QuestionDifficulty :=
  if previousScores.isEmpty then currentDifficulty
  else
    let avgRecentScore := listMean (lastThree previousScores)
    if avgRecentScore ≥ 85 then .advanced
    else if avgRecentScore ≥ 70 then .intermediate
    else if avgRecentScore ≥ 50 then currentDifficulty
    else currentDifficulty.demote

/-- One attempt of the adjacent-tier search in `get_adaptive_question`:
`if 0 <= new_index < len(difficulty_order): ... get_random_question(...)`. -/
def tryOffsetQuestion (questions : List ExcelQuestion)
    (askedQuestionIds : List String) (choice : ℕ) (newIndex : ℤ) :
    Option ExcelQuestion :=
  match difficultyAtIndex newIndex with
  | some d => getRandomQuestion questions (some d) askedQuestionIds choice
  | none => none

/-- `QuestionBankService.get_adaptive_question`: draw at the target
difficulty; on failure search adjacent tiers in the order [-1, +1, -2, +2]
relative to the target index. -/
def getAdaptiveQuestion (questions : List ExcelQuestion)
    (currentDifficulty : QuestionDifficulty) (previousScores : List ℚ)
    (askedQuestionIds : List String) (choice : ℕ) : Option ExcelQuestion :=
  let targetDifficulty := adaptiveTargetDifficulty currentDifficulty previousScores
  match getRandomQuestion questions (some targetDifficulty) askedQuestionIds choice with
  | some q => some q
  | none =>
    let currentIndex := targetDifficulty.index
    match tryOffsetQuestion questions askedQuestionIds choice (currentIndex + -1) with
    | some q => some q
    | none =>
      match tryOffsetQuestion questions askedQuestionIds choice (currentIndex + 1) with
      | some q => some q
      | none =>
        match tryOffsetQuestion questions askedQuestionIds choice (currentIndex + -2) with
        | some q => some q
        | none => tryOffsetQuestion questions askedQuestionIds choice (currentIndex + 2)

/-! ## Feedback engine (services/feedback_engine.py) -/

/-- One entry of the session's `responses` list (`response_data` in
`process_response`); timestamps are omitted. -/
structure ResponseRecord where
  questionId : String
  questionText : String
  candidateResponse : String
  evaluation : Evaluation
  responseTime : ℚ
deriving DecidableEq, Repr

/-- Per-dimension averages in `_calculate_performance_statistics`. -/
structure DimensionAverages where
  technicalAccuracy : ℚ
  communicationClarity : ℚ
  problemSolvingApproach : ℚ
  completeness : ℚ
  efficiency : ℚ
deriving DecidableEq, Repr

/-- The statistics dict of `_calculate_performance_statistics`. -/
structure PerformanceStats where
  overallScore : ℚ
  dimensionAverages : DimensionAverages
  consistency : ℚ
  performanceTrend : ℚ
  scoreMin : ℚ
  scoreMax : ℚ
deriving DecidableEq, Repr

/-- Sample standard deviation squared, i.e. the quantity `statistics.stdev`
takes the square root of: `Σ (x - mean)² / (n - 1)` for `n ≥ 2`. -/
def sampleVariance (l : List ℚ) : ℚ :=
  if l.length ≥ 2 then
    ((l.map (fun x => (x - listMean l) ^ 2)).sum) / (l.length - 1)
  else 0

/-- Minimum of a score list, with the head as the accumulator seed
(`min(all_scores)` on a nonempty list). -/
def listMin (l : List ℚ) : ℚ := l.foldl min (l.headD 0)

def listMax (l : List ℚ) : ℚ := l.foldl max (l.headD 0)

/-- `FeedbackEngine._calculate_performance_statistics` for a nonempty
response list.  `statistics.stdev(all_scores)` is an irrational square root
in general, so it is passed in as the argument `stdevScores`, characterised
where needed by `stdevScores ^ 2 = sampleVariance` and `0 ≤ stdevScores`. -/
def calculatePerformanceStatistics (responses : List ResponseRecord)
    (stdevScores : ℚ) : PerformanceStats :=
  let allScores := responses.map (fun r => r.evaluation.overallScore)
  let dimensionAverages : DimensionAverages :=
    { technicalAccuracy := listMean (responses.map (fun r => r.evaluation.technicalAccuracy))
      communicationClarity := listMean (responses.map (fun r => r.evaluation.communicationClarity))
      problemSolvingApproach := listMean (responses.map (fun r => r.evaluation.problemSolvingApproach))
      completeness := listMean (responses.map (fun r => r.evaluation.completeness))
      efficiency := listMean (responses.map (fun r => r.evaluation.efficiency)) }
  let consistency : ℚ :=
    100 - min (if allScores.length > 1 then stdevScores else 0) 25
  let trend : ℚ :=
    if allScores.length ≥ 3 then
      listMean (allScores.drop (allScores.length / 2)) -
        listMean (allScores.take (allScores.length / 2))
    else 0
  { overallScore := round2 (listMean allScores)
    dimensionAverages :=
      { technicalAccuracy := round2 dimensionAverages.technicalAccuracy
        communicationClarity := round2 dimensionAverages.communicationClarity
        problemSolvingApproach := round2 dimensionAverages.problemSolvingApproach
        completeness := round2 dimensionAverages.completeness
        efficiency := round2 dimensionAverages.efficiency }
    consistency := round2 consistency
    performanceTrend := round2 trend
    scoreMin := listMin allScores
    scoreMax := listMax allScores }

/-- `FeedbackEngine._determine_skill_level`. -/
def determineSkillLevel (overallScore : ℚ) : SkillAssessment :=
  if overallScore ≥ 90 then .expert
  else if overallScore ≥ 80 then .advanced
  else if overallScore ≥ 65 then .intermediate
  else if overallScore ≥ 45 then .basic
  else if overallScore ≥ 25 then .beginner
  else .insufficientData

/-- `FeedbackEngine._determine_hire_recommendation`. -/
def determineHireRecommendation (overallScore consistency trend : ℚ) :
    HireRecommendation :=
  if overallScore ≥ 85 ∧ consistency ≥ 70 then .strongHire
  else if overallScore ≥ 75 ∧ consistency ≥ 60 then .hire
  else if overallScore ≥ 60 ∧ (consistency ≥ 50 ∨ trend > 5) then .conditionalHire
  else if overallScore ≥ 40 then .noHire
  else .strongNoHire

/-- The final-assessment record; report fields with no algorithmic content
(benchmarking, executive summary, per-category maps) are omitted. -/
structure FinalAssessment where
  overallScore : ℚ
  skillLevelAssessment : SkillAssessment
  hireRecommendation : HireRecommendation
  statistics : Option PerformanceStats
  detailedFeedback : String
  totalQuestions : ℕ
deriving DecidableEq, Repr

/-- `FeedbackEngine._get_default_assessment`. -/
def defaultAssessment (errorMessage : String) : FinalAssessment :=
  { overallScore := 0
    skillLevelAssessment := .insufficientData
    hireRecommendation := .noHire
    statistics := none
    detailedFeedback := "Assessment could not be completed: " ++ errorMessage
    totalQuestions := 0 }

/-- `FeedbackEngine.generate_final_assessment`.  The narrative feedback text
(an LLM call with a deterministic template fallback) is the explicit argument
`detailedFeedback`; `stdevScores` is the sample standard deviation of the
overall scores (see `calculatePerformanceStatistics`). -/
def generateFinalAssessment (responses : List ResponseRecord)
    (stdevScores : ℚ) (detailedFeedback : String) : FinalAssessment :=
  if responses.isEmpty then defaultAssessment "No responses provided"
  else
    let stats := calculatePerformanceStatistics responses stdevScores
    let skillLevel := determineSkillLevel stats.overallScore
    let hireRecommendation :=
      determineHireRecommendation stats.overallScore stats.consistency
        stats.performanceTrend
    { overallScore := stats.overallScore
      skillLevelAssessment := skillLevel
      hireRecommendation := hireRecommendation
      statistics := some stats
      detailedFeedback := detailedFeedback
      totalQuestions := responses.length }

/-! ## Conversation manager (services/conversation_manager.py) -/

/-- One entry of `conversation_history`: the assistant's question text, the
user's answer text, or the system score line (`"Score: {overall}/100"`,
recorded here by its score). -/
inductive ChatEntry
  | assistant (content : String)
  | user (content : String)
  | system (score : ℚ)
deriving DecidableEq, Repr

/-- The per-session interview state dict. -/
structure SessionState where
  status : InterviewStatus
  currentDifficulty : QuestionDifficulty
  currentQuestion : Option ExcelQuestion
  questionsAsked : List String
  responses : List ResponseRecord
  scores : List ℚ
  currentQuestionIndex : ℕ
  conversationHistory : List ChatEntry
  finalAssessment : Option FinalAssessment
deriving DecidableEq, Repr

/-- `ConversationManager._adjust_difficulty`: last-3 mean ≥ 85 escalates one
tier (capped at advanced), below 40 de-escalates one tier (floored at basic),
otherwise the current tier is kept. -/
def adjustDifficulty (scores : List ℚ) (currentDifficulty : QuestionDifficulty) :
    QuestionDifficulty :=
  if scores.isEmpty then currentDifficulty
  else
    let avgRecent := listMean (lastThree scores)
    if avgRecent ≥ 85 ∧ currentDifficulty ≠ .advanced then
      match currentDifficulty with
      | .basic => .intermediate
      | .intermediate => .advanced
      | .advanced => .advanced
    else if avgRecent < 40 ∧ currentDifficulty ≠ .basic then
      match currentDifficulty with
      | .advanced => .intermediate
      | .intermediate => .basic
      | .basic => .basic
    else currentDifficulty

/-- `ConversationManager._should_continue_interview`: continue while fewer
than 15 responses, unless at least 5 scores exist with a running mean
below 25. -/
def shouldContinueInterview (responses : List ResponseRecord) (scores : List ℚ) :
    Bool :=
  let questionsAsked := responses.length
  let maxQuestions := 15
  if questionsAsked < maxQuestions then
    if scores.length ≥ 5 ∧ listMean scores < 25 then false
    else questionsAsked < maxQuestions
  else questionsAsked < maxQuestions

/-- Structured outcome of `process_response`. -/
inductive ProcessResult
  | error (message : String)
  | continueInterview (evaluation : Evaluation) (nextQuestion : ExcelQuestion)
  | completedInterview (finalAssessment : FinalAssessment)
deriving DecidableEq, Repr

def ProcessResult.isError : ProcessResult → Bool
  | .error _ => true
  | _ => false

/-- The non-deterministic/external inputs of one `process_response` call:
the candidate's answer, the provider outcome and local text analysis behind
the evaluation, the random-choice index for the next question, and the
stdev/narrative inputs consumed if the call terminates the session. -/
structure StepInputs where
  candidateResponse : String
  responseTimeSeconds : ℚ
  providerOutcome : ProviderOutcome
  analysis : LocalAnalysis
  evaluationTime : ℚ
  choice : ℕ
  stdevScores : ℚ
  feedbackText : String

/-- Combined post-state of one orchestrator step: the result returned to the
caller plus the session, evaluator cache and question bank after the call. -/
structure StepOutput where
  result : ProcessResult
  session : SessionState
  evaluator : EvaluatorState
  bank : List ExcelQuestion

/-- `ConversationManager._end_interview`: mark the session completed and
attach the final assessment. -/
def endInterview (session : SessionState) (inputs : StepInputs)
    (evaluator : EvaluatorState) (bank : List ExcelQuestion) : StepOutput :=
  let finalAssessment :=
    generateFinalAssessment session.responses inputs.stdevScores inputs.feedbackText
  { result := .completedInterview finalAssessment
    session := { session with
      status := .completed
      finalAssessment := some finalAssessment }
    evaluator := evaluator
    bank := bank }

/-- `ConversationManager.process_response` for an existing session.  Note the
source performs no status check: any stored session with a current question is
processed, whatever its status. -/
def processResponse (bank : List ExcelQuestion) (evaluator : EvaluatorState)
    (session : SessionState) (inputs : StepInputs) : StepOutput :=
  match session.currentQuestion with
  | none =>
    { result := .error "No active question found"
      session := session, evaluator := evaluator, bank := bank }
  | some currentQuestion =>
    let evalResult :=
      evaluateResponse evaluator currentQuestion.questionText
        inputs.candidateResponse session.currentDifficulty
        inputs.providerOutcome inputs.analysis inputs.evaluationTime
    let evaluation := evalResult.1
    let evaluator' := evalResult.2
    let responseData : ResponseRecord :=
      { questionId := currentQuestion.id
        questionText := currentQuestion.questionText
        candidateResponse := inputs.candidateResponse
        evaluation := evaluation
        responseTime := inputs.responseTimeSeconds }
    let session := { session with
      responses := session.responses ++ [responseData]
      scores := session.scores ++ [evaluation.overallScore]
      currentQuestionIndex := session.currentQuestionIndex + 1
      conversationHistory := session.conversationHistory ++
        [ChatEntry.assistant currentQuestion.questionText,
         ChatEntry.user inputs.candidateResponse,
         ChatEntry.system evaluation.overallScore] }
    let bank' := updateQuestionStats bank currentQuestion.id
      evaluation.overallScore inputs.responseTimeSeconds
    let newDifficulty := adjustDifficulty session.scores session.currentDifficulty
    let session := { session with currentDifficulty := newDifficulty }
    if shouldContinueInterview session.responses session.scores then
      match getAdaptiveQuestion bank' newDifficulty session.scores
          session.questionsAsked inputs.choice with
      | some nextQuestion =>
        { result := .continueInterview evaluation nextQuestion
          session := { session with
            currentQuestion := some nextQuestion
            questionsAsked := session.questionsAsked ++ [nextQuestion.id] }
          evaluator := evaluator'
          bank := bank' }
      | none => endInterview session inputs evaluator' bank'
    else endInterview session inputs evaluator' bank'

/-- `ConversationManager.start_interview`: build the initial in-progress
state and attach the first question; fails when no question can be drawn. -/
def startInterview (bank : List ExcelQuestion)
    (skillLevel : QuestionDifficulty) (choice : ℕ) : Option SessionState :=
  let initialState : SessionState :=
    { status := .inProgress
      currentDifficulty := skillLevel
      currentQuestion := none
      questionsAsked := []
      responses := []
      scores := []
      currentQuestionIndex := 0
      conversationHistory := []
      finalAssessment := none }
  match getAdaptiveQuestion bank skillLevel [] [] choice with
  | some firstQuestion =>
    some { initialState with
      currentQuestion := some firstQuestion
      questionsAsked := [firstQuestion.id] }
  | none => none

/-- `ConversationManager.pause_interview` (only the state transition; the
missing-session error path is outside the session model): rejected unless the
session is in progress, and on success only the status flips to paused. -/
def pauseInterview (session : SessionState) : Except String SessionState :=
  if session.status ≠ .inProgress then
    .error "Interview is not in progress"
  else
    .ok { session with status := .paused }

/-- `ConversationManager.resume_interview`. -/
def resumeInterview (session : SessionState) : Except String SessionState :=
  if session.status ≠ .paused then
    .error "Interview is not paused"
  else
    .ok { session with status := .inProgress }

/-! ## Reachable orchestrator states -/

/-- A world: the session under consideration together with the shared
evaluator cache and question bank. -/
structure WorldState where
  session : SessionState
  evaluator : EvaluatorState
  bank : List ExcelQuestion

/-- The orchestrator states reachable from `start_interview` by any sequence
of `process_response` calls with arbitrary external inputs. -/
inductive ReachableWorld : WorldState → Prop
  | start (bank : List ExcelQuestion) (evaluator : EvaluatorState)
      (skillLevel : QuestionDifficulty) (choice : ℕ) (s : SessionState) :
      startInterview bank skillLevel choice = some s →
      ReachableWorld ⟨s, evaluator, bank⟩
  | step (w : WorldState) (inputs : StepInputs) :
      ReachableWorld w →
      ReachableWorld
        ⟨(processResponse w.bank w.evaluator w.session inputs).session,
         (processResponse w.bank w.evaluator w.session inputs).evaluator,
         (processResponse w.bank w.evaluator w.session inputs).bank⟩

/-! ## Spec-side definition for the refinement claim about overall_score -/

/-- Modelled from the spec wording, for comparison with the source-derived
definitions: the weighted mean of the five sub-scores with weights
0.35, 0.15, 0.25, 0.15, 0.10. -/
def specWeightedMean (t c p comp eff : ℚ) : ℚ :=
  (35 * t + 15 * c + 25 * p + 15 * comp + 10 * eff) / 100

/-! ## Concrete sample data for witnesses and counterexamples -/

/-- A local-analysis outcome with every indicator off except the
answer-length band (so every heuristic adjustment is 0). -/
def analysis0 : LocalAnalysis :=
  { wordCount := 50
    excelFunctionsMentioned := []
    keywordDensity := 0
    mentionsFormulas := false
    mentionsSteps := false
    mentionsSpecificFunctions := false
    mentionsCellReferences := false
    mentionsRanges := false
    usesExplanation := false
    providesExamples := false
    structuredResponse := false
    appropriateLength := true
    addressesHow := false
    addressesWhat := false
    addressesWhen := false
    providesAlternatives := false }

/-- A provider evaluation with sub-scores (100, 0, 0, 0, 0). -/
def aiEval0 : Evaluation :=
  { technicalAccuracy := 100
    communicationClarity := 0
    problemSolvingApproach := 0
    completeness := 0
    efficiency := 0
    overallScore := 50
    feedback := ""
    strengths := []
    areasForImprovement := []
    nextDifficultyLevel := .basic
    confidenceScore := none
    evaluationMethod := none
    evaluationTime := none }

/-- A provider response from which the efficiency score is missing. -/
def parsedMissingEfficiency : ParsedEvaluation :=
  { technicalAccuracy := some 80
    communicationClarity := some 80
    problemSolvingApproach := some 80
    completeness := some 80
    efficiency := none
    overallScore := some 80
    feedback := some "ok"
    strengths := some []
    areasForImprovement := some []
    nextDifficultyLevel := some .basic }

/-- The first question of the shipped bank (fields the orchestrator reads). -/
def q0 : ExcelQuestion :=
  { id := "basic_001"
    questionText := "How would you calculate the sum of values in cells A1 to A10?"
    difficulty := .basic
    isActive := true
    timesUsed := 0
    averageScore := none
    passRate := none
    averageResponseTime := none }

def sampleBank : List ExcelQuestion := [q0]

/-- Step inputs in which the Language Model Provider errors. -/
def failingInputs : StepInputs :=
  { candidateResponse := "I would use SUM over the range"
    responseTimeSeconds := 10
    providerOutcome := .providerError
    analysis := analysis0
    evaluationTime := 1
    choice := 0
    stdevScores := 0
    feedbackText := "template feedback" }

/-- The session produced by `startInterview sampleBank .basic 0`. -/
def sampleStartedSession : SessionState :=
  { status := .inProgress
    currentDifficulty := .basic
    currentQuestion := some q0
    questionsAsked := ["basic_001"]
    responses := []
    scores := []
    currentQuestionIndex := 0
    conversationHistory := []
    finalAssessment := none }

/-- A paused session that still has an active question. -/
def pausedSession0 : SessionState :=
  { sampleStartedSession with status := .paused }

/-- An evaluator with an empty cache. -/
def emptyEvaluator : EvaluatorState := { cache := [] }

/-! # Theorems -/

/-! ## Rounding helper lemmas -/

theorem pyRoundInt_intCast (n : ℤ) : pyRoundInt (n : ℚ) = n := by
  simp [pyRoundInt]

theorem le_pyRoundInt {a : ℤ} {x : ℚ} (h : (a : ℚ) ≤ x) : a ≤ pyRoundInt x := by
  have hfl : a ≤ ⌊x⌋ := Int.le_floor.mpr h
  simp only [pyRoundInt]
  split_ifs <;> omega

theorem pyRoundInt_le {x : ℚ} {b : ℤ} (h : x ≤ (b : ℚ)) : pyRoundInt x ≤ b := by
  have hfl : ⌊x⌋ ≤ b := by
    have := Int.floor_mono h
    simpa using this
  rcases eq_or_lt_of_le hfl with heq | hlt
  · -- ⌊x⌋ = b forces x = b, whose fractional part is 0
    have hxb : (b : ℚ) ≤ x := by
      have := Int.floor_le x
      rw [heq] at this
      exact this
    have hxeq : x = (b : ℚ) := le_antisymm h hxb
    subst hxeq
    rw [pyRoundInt_intCast]
  · simp only [pyRoundInt]
    split_ifs <;> omega

theorem round2_bounds {a b : ℤ} {x : ℚ} (ha : (a : ℚ) ≤ x) (hb : x ≤ (b : ℚ)) :
    (a : ℚ) ≤ round2 x ∧ round2 x ≤ (b : ℚ) := by
  have h1 : (100 * a : ℤ) ≤ pyRoundInt (100 * x) := by
    apply le_pyRoundInt
    push_cast
    linarith
  have h2 : pyRoundInt (100 * x) ≤ (100 * b : ℤ) := by
    apply pyRoundInt_le
    push_cast
    linarith
  constructor
  · rw [round2, le_div_iff₀ (by norm_num : (0:ℚ) < 100)]
    calc (a : ℚ) * 100 = ((100 * a : ℤ) : ℚ) := by push_cast; ring
    _ ≤ (pyRoundInt (100 * x) : ℚ) := by exact_mod_cast h1
  · rw [round2, div_le_iff₀ (by norm_num : (0:ℚ) < 100)]
    calc (pyRoundInt (100 * x) : ℚ) ≤ ((100 * b : ℤ) : ℚ) := by exact_mod_cast h2
    _ = (b : ℚ) * 100 := by push_cast; ring

theorem round2_intCast (n : ℤ) : round2 ((n : ℚ)) = n := by
  rw [round2, show (100 * (n : ℚ)) = ((100 * n : ℤ) : ℚ) by push_cast; ring,
    pyRoundInt_intCast]
  push_cast
  ring

/-! ## Claim C5: termination policy -/

/-- C5: `should_continue` holds iff fewer than 15 questions have been
answered and it is not the case that at least 5 scores were recorded with a
running mean below 25; in particular a session with 5 answers averaging
below 25 stops before the 15-question maximum. -/
theorem claim_C5 (responses : List ResponseRecord) (scores : List ℚ) :
    shouldContinueInterview responses scores = true ↔
      (responses.length < 15 ∧ ¬(5 ≤ scores.length ∧ listMean scores < 25)) := by
  unfold shouldContinueInterview
  split_ifs <;> simp_all

/-- C5 witness: an empty session continues; a 5-answer session with mean
10 < 25 does not continue even though 5 < 15. -/
theorem claim_C5_witness :
    shouldContinueInterview [] [] = true ∧
      ¬ shouldContinueInterview
          (List.replicate 5
            { questionId := "basic_001", questionText := "q"
              candidateResponse := "a", evaluation := aiEval0
              responseTime := 0 })
          (List.replicate 5 10) = true := by
  constructor
  · exact (claim_C5 [] []).mpr (by simp)
  · intro hcontra
    have h := (claim_C5 _ _).mp hcontra
    exact h.2 (by norm_num [listMean, List.sum_replicate])

/-! ## Claim C7: empty evaluation list -/

/-- C7: the aggregator invoked with an empty evaluation list returns the
default assessment without failing: skill level insufficient_data and
overall score 0. -/
theorem claim_C7 (stdevScores : ℚ) (feedbackText : String) :
    generateFinalAssessment [] stdevScores feedbackText =
        defaultAssessment "No responses provided" ∧
      (generateFinalAssessment [] stdevScores feedbackText).skillLevelAssessment =
        SkillAssessment.insufficientData ∧
      (generateFinalAssessment [] stdevScores feedbackText).overallScore = 0 :=
  ⟨rfl, rfl, rfl⟩

/-! ## Claim C9: hire recommendation rule order -/

/-- C9: the hire recommendation is the first matching rule of the ordered
chain: strong_hire (score ≥ 85 and consistency ≥ 70), hire (score ≥ 75 and
consistency ≥ 60), conditional_hire (score ≥ 60 and (consistency ≥ 50 or
trend > 5)), no_hire (score ≥ 40), else strong_no_hire. -/
theorem claim_C9 (score consistency trend : ℚ) :
    (determineHireRecommendation score consistency trend = .strongHire ↔
      score ≥ 85 ∧ consistency ≥ 70) ∧
    (determineHireRecommendation score consistency trend = .hire ↔
      ¬(score ≥ 85 ∧ consistency ≥ 70) ∧ (score ≥ 75 ∧ consistency ≥ 60)) ∧
    (determineHireRecommendation score consistency trend = .conditionalHire ↔
      ¬(score ≥ 85 ∧ consistency ≥ 70) ∧ ¬(score ≥ 75 ∧ consistency ≥ 60) ∧
        (score ≥ 60 ∧ (consistency ≥ 50 ∨ trend > 5))) ∧
    (determineHireRecommendation score consistency trend = .noHire ↔
      ¬(score ≥ 85 ∧ consistency ≥ 70) ∧ ¬(score ≥ 75 ∧ consistency ≥ 60) ∧
        ¬(score ≥ 60 ∧ (consistency ≥ 50 ∨ trend > 5)) ∧ score ≥ 40) ∧
    (determineHireRecommendation score consistency trend = .strongNoHire ↔
      ¬(score ≥ 85 ∧ consistency ≥ 70) ∧ ¬(score ≥ 75 ∧ consistency ≥ 60) ∧
        ¬(score ≥ 60 ∧ (consistency ≥ 50 ∨ trend > 5)) ∧ ¬(score ≥ 40)) := by
  unfold determineHireRecommendation
  split_ifs with h1 h2 h3 h4 <;> simp_all

/-! ## Claim C1: overall_score recomputation -/

/-- C1 counterexample: blending a provider evaluation with sub-scores
(100, 0, 0, 0, 0) and all-zero heuristic adjustments yields
overall_score 20 — the unweighted mean — not 35, the weighted mean with
weights 0.35/0.15/0.25/0.15/0.10 claimed by the spec. -/
theorem claim_C1_counterexample :
    (enhanceEvaluation aiEval0 analysis0).overallScore ≠
        round2 (specWeightedMean
          (enhanceEvaluation aiEval0 analysis0).technicalAccuracy
          (enhanceEvaluation aiEval0 analysis0).communicationClarity
          (enhanceEvaluation aiEval0 analysis0).problemSolvingApproach
          (enhanceEvaluation aiEval0 analysis0).completeness
          (enhanceEvaluation aiEval0 analysis0).efficiency) ∧
      (enhanceEvaluation aiEval0 analysis0).overallScore = 20 ∧
      round2 (specWeightedMean 100 0 0 0 0) = 35 := by
  refine ⟨?_, ?_, ?_⟩
  all_goals
    norm_num [enhanceEvaluation, aiEval0, analysis0, calculateScoreAdjustments,
      applyAdjustment, calculateConfidence, boolScore, specWeightedMean,
      round2, pyRoundInt]

/-- C1 amended: after the blending step and after provider validation,
overall_score is recomputed as the UNWEIGHTED arithmetic mean of the five
sub-scores, rounded to 2 decimals; the provider's self-reported
overall_score is never used verbatim (replacing it changes nothing). -/
theorem claim_C1_amended :
    (∀ (aiEvaluation : Evaluation) (analysis : LocalAnalysis),
      (enhanceEvaluation aiEvaluation analysis).overallScore =
        round2 ((enhanceEvaluation aiEvaluation analysis).subScoreSum / 5)) ∧
    (∀ (outcome : ProviderOutcome) (difficulty : QuestionDifficulty),
      (evaluateExcelResponse outcome difficulty).overallScore =
        round2 ((evaluateExcelResponse outcome difficulty).subScoreSum / 5)) ∧
    (∀ (aiEvaluation : Evaluation) (analysis : LocalAnalysis) (x y : ℚ),
      enhanceEvaluation { aiEvaluation with overallScore := x } analysis =
        enhanceEvaluation { aiEvaluation with overallScore := y } analysis) ∧
    (∀ (p : ParsedEvaluation) (difficulty : QuestionDifficulty) (v w : ℚ),
      evaluateExcelResponse (.parsed { p with overallScore := some v }) difficulty =
        evaluateExcelResponse (.parsed { p with overallScore := some w }) difficulty) := by
  have hfallback : ∀ difficulty : QuestionDifficulty,
      (llmFallbackEvaluation difficulty).overallScore =
        round2 ((llmFallbackEvaluation difficulty).subScoreSum / 5) := by
    intro difficulty
    cases difficulty <;>
      norm_num [llmFallbackEvaluation, Evaluation.subScoreSum, llmBaseScore,
        round2, pyRoundInt]
  refine ⟨?_, ?_, ?_, ?_⟩
  · intro aiEvaluation analysis
    simp [enhanceEvaluation, Evaluation.subScoreSum]
  · intro outcome difficulty
    cases outcome with
    | providerError => exact hfallback difficulty
    | malformedJson => exact hfallback difficulty
    | parsed p =>
      by_cases hmiss : p.missingRequiredField
      · simp only [evaluateExcelResponse, hmiss, if_true]
        exact hfallback difficulty
      · simp [evaluateExcelResponse, hmiss, Evaluation.subScoreSum]
  · intro aiEvaluation analysis x y
    rfl
  · intro p difficulty v w
    rfl

/-! ## Claim C2: adaptive difficulty targeting -/

/-- C2 counterexample: with current tier basic and a last-3 mean of 90
(≥ 85), the selector targets advanced directly — two tiers above basic —
not exactly one tier above as claimed. -/
theorem claim_C2_counterexample :
    adaptiveTargetDifficulty .basic [90] = .advanced ∧
      adaptiveTargetDifficulty .basic [90] ≠ .intermediate := by
  have h : adaptiveTargetDifficulty .basic [90] = .advanced := by
    norm_num [adaptiveTargetDifficulty, lastThree, listMean]
  exact ⟨h, by rw [h]; exact fun hc => nomatch hc⟩

/-- C2 amended: with at least one prior score, the selector targets an
ABSOLUTE tier from the last-3 mean — ≥ 85 advanced, [70, 85) intermediate,
[50, 70) the current tier, < 50 one tier below current floored at basic —
while the session difficulty adjuster escalates one tier on mean ≥ 85,
de-escalates one tier on mean < 40 (not 50), and otherwise holds. -/
theorem claim_C2_amended (current : QuestionDifficulty) (scores : List ℚ)
    (h : scores ≠ []) :
    (listMean (lastThree scores) ≥ 85 →
      adaptiveTargetDifficulty current scores = .advanced) ∧
    (70 ≤ listMean (lastThree scores) ∧ listMean (lastThree scores) < 85 →
      adaptiveTargetDifficulty current scores = .intermediate) ∧
    (50 ≤ listMean (lastThree scores) ∧ listMean (lastThree scores) < 70 →
      adaptiveTargetDifficulty current scores = current) ∧
    (listMean (lastThree scores) < 50 →
      adaptiveTargetDifficulty current scores = current.demote) ∧
    (listMean (lastThree scores) ≥ 85 ∧ current ≠ .advanced →
      (adjustDifficulty scores current).index = current.index + 1) ∧
    (listMean (lastThree scores) < 40 ∧ current ≠ .basic →
      (adjustDifficulty scores current).index = current.index - 1) ∧
    (40 ≤ listMean (lastThree scores) ∧ listMean (lastThree scores) < 85 →
      adjustDifficulty scores current = current) := by
  have hne : scores.isEmpty = false := by
    simpa [List.isEmpty_iff] using h
  refine ⟨?_, ?_, ?_, ?_, ?_, ?_, ?_⟩
  · intro hm
    simp only [adaptiveTargetDifficulty, hne, Bool.false_eq_true, if_false]
    rw [if_pos hm]
  · rintro ⟨h70, h85⟩
    simp only [adaptiveTargetDifficulty, hne, Bool.false_eq_true, if_false]
    rw [if_neg (by linarith), if_pos (by linarith)]
  · rintro ⟨h50, h70⟩
    simp only [adaptiveTargetDifficulty, hne, Bool.false_eq_true, if_false]
    rw [if_neg (by linarith), if_neg (by linarith), if_pos (by linarith)]
  · intro hm
    simp only [adaptiveTargetDifficulty, hne, Bool.false_eq_true, if_false]
    rw [if_neg (by linarith), if_neg (by linarith), if_neg (by linarith)]
  · rintro ⟨hm, hcur⟩
    simp only [adjustDifficulty, hne, Bool.false_eq_true, if_false]
    rw [if_pos ⟨hm, hcur⟩]
    cases current with
    | basic => decide
    | intermediate => decide
    | advanced => exact absurd rfl hcur
  · rintro ⟨hm, hcur⟩
    simp only [adjustDifficulty, hne, Bool.false_eq_true, if_false]
    rw [if_neg (by rintro ⟨h85, -⟩; linarith), if_pos ⟨hm, hcur⟩]
    cases current with
    | basic => exact absurd rfl hcur
    | intermediate => decide
    | advanced => decide
  · rintro ⟨h40, h85⟩
    simp only [adjustDifficulty, hne, Bool.false_eq_true, if_false]
    rw [if_neg (by rintro ⟨hge, -⟩; linarith),
      if_neg (by rintro ⟨hlt, -⟩; linarith)]

/-- Both construction paths of the provider-validation step leave
`evaluation_time` unset. -/
theorem evaluateExcelResponse_evaluationTime (outcome : ProviderOutcome)
    (difficulty : QuestionDifficulty) :
    (evaluateExcelResponse outcome difficulty).evaluationTime = none := by
  cases outcome with
  | providerError => rfl
  | malformedJson => rfl
  | parsed p =>
    by_cases hmiss : p.missingRequiredField <;>
      simp [evaluateExcelResponse, hmiss, llmFallbackEvaluation]

/-- The blend step copies `evaluation_time` from its input. -/
theorem enhanceEvaluation_evaluationTime (aiEvaluation : Evaluation)
    (analysis : LocalAnalysis) :
    (enhanceEvaluation aiEvaluation analysis).evaluationTime =
      aiEvaluation.evaluationTime := rfl

/-- Mapping `times_used` over a stats update increments exactly the matching
question ids. -/
theorem updateQuestionStats_timesUsed (bank : List ExcelQuestion)
    (questionId : String) (score responseTime : ℚ) :
    (updateQuestionStats bank questionId score responseTime).map
        (fun p => p.timesUsed) =
      bank.map (fun p =>
        if p.id = questionId then p.timesUsed + 1 else p.timesUsed) := by
  simp only [updateQuestionStats, List.map_map]
  refine List.map_congr_left ?_
  intro p hp
  by_cases h : p.id = questionId <;>
    simp [h, ExcelQuestion.updateUsageStats]

/-- C2 witness: the amended characterisation at current tier basic with
score history [90] (last-3 mean 90 ≥ 85 targets advanced) and at current
tier advanced with history [30] (mean 30 < 40 de-escalates one tier). -/
theorem claim_C2_witness :
    adaptiveTargetDifficulty .basic [90] = .advanced ∧
      (adjustDifficulty [30] QuestionDifficulty.advanced).index =
        QuestionDifficulty.advanced.index - 1 := by
  constructor
  · exact (claim_C2_amended .basic [90] (by simp)).1
      (by norm_num [listMean, lastThree])
  · exact (claim_C2_amended .advanced [30] (by simp)).2.2.2.2.2.1
      ⟨by norm_num [listMean, lastThree], by decide⟩

/-! ## Claim C3: submit_answer and session status -/

/-- C3 counterexample: a paused session with an active question is NOT
rejected by `process_response` — the call succeeds and mutates the stored
record (a response is appended). -/
theorem claim_C3_counterexample :
    pausedSession0.status = InterviewStatus.paused ∧
      pausedSession0.responses.length = 0 ∧
      (processResponse sampleBank emptyEvaluator pausedSession0
          failingInputs).result.isError = false ∧
      (processResponse sampleBank emptyEvaluator pausedSession0
          failingInputs).session.responses.length = 1 := by
  refine ⟨rfl, rfl, ?_, ?_⟩ <;>
    norm_num [processResponse, pausedSession0, sampleStartedSession, failingInputs,
      sampleBank, q0, evaluateResponse, emptyEvaluator, EvaluatorState.lookup,
      evaluateExcelResponse, llmFallbackEvaluation, llmBaseScore, enhanceEvaluation,
      calculateScoreAdjustments, applyAdjustment, calculateConfidence, boolScore,
      analysis0, updateQuestionStats, ExcelQuestion.updateUsageStats,
      adjustDifficulty, lastThree, listMean, shouldContinueInterview,
      getAdaptiveQuestion, adaptiveTargetDifficulty, getRandomQuestion, tryOffsetQuestion,
      difficultyAtIndex, QuestionDifficulty.index, QuestionDifficulty.demote,
      endInterview, generateFinalAssessment, calculatePerformanceStatistics,
      determineSkillLevel, determineHireRecommendation, defaultAssessment,
      round2, pyRoundInt, listMin, listMax, sampleVariance, ProcessResult.isError]

/-- C3 amended: `process_response` performs no status check — it accepts any
session that exists and has an active current question, whatever its status
(in particular paused), evaluates the answer, and mutates the record
(response and score appended); its result does not depend on the status. -/
theorem claim_C3_amended (bank : List ExcelQuestion) (evaluator : EvaluatorState)
    (session : SessionState) (inputs : StepInputs) (q : ExcelQuestion)
    (h : session.currentQuestion = some q) :
    (processResponse bank evaluator session inputs).result.isError = false ∧
    (processResponse bank evaluator session inputs).session.responses.length =
      session.responses.length + 1 ∧
    (processResponse bank evaluator session inputs).session.scores.length =
      session.scores.length + 1 ∧
    (∀ st : InterviewStatus,
      (processResponse bank evaluator { session with status := st } inputs).result =
        (processResponse bank evaluator session inputs).result) := by
  refine ⟨?_, ?_, ?_, ?_⟩
  · simp only [processResponse, h]
    split
    all_goals try split
    all_goals simp [endInterview, ProcessResult.isError]
  · simp only [processResponse, h]
    split
    all_goals try split
    all_goals simp [endInterview, ProcessResult.isError]
  · simp only [processResponse, h]
    split
    all_goals try split
    all_goals simp [endInterview, ProcessResult.isError]
  · intro st
    simp only [processResponse]
    rw [show ({ session with status := st } : SessionState).currentQuestion =
      session.currentQuestion from rfl, h]
    dsimp only
    split
    all_goals try split
    all_goals rfl

/-- C3 witness: the amended statement applied to the concrete paused session
with the bank question active. -/
theorem claim_C3_witness :
    (processResponse sampleBank emptyEvaluator pausedSession0
        failingInputs).result.isError = false :=
  (claim_C3_amended sampleBank emptyEvaluator pausedSession0 failingInputs q0
    rfl).1

/-! ## Claim C4: cache idempotence and usage counters -/

/-- C4 counterexample: submitting the byte-identical
(question, answer, difficulty) twice gives a second Evaluation that is NOT
identical to the first (`evaluation_method` is "cached" instead of
"ai_enhanced" and `evaluation_time` is absent), and the question's
`times_used` counter is incremented on BOTH submissions (it ends at 2, not 1). -/
theorem claim_C4_counterexample :
    ((evaluateResponse (evaluateResponse emptyEvaluator "Q" "A" .basic
          .providerError analysis0 1).2 "Q" "A" .basic .providerError
          analysis0 1).1 ≠
        (evaluateResponse emptyEvaluator "Q" "A" .basic .providerError
          analysis0 1).1) ∧
      ((processResponse (processResponse sampleBank emptyEvaluator
            sampleStartedSession failingInputs).bank
          (processResponse sampleBank emptyEvaluator sampleStartedSession
            failingInputs).evaluator
          sampleStartedSession failingInputs).bank.map
            (fun p => p.timesUsed)) = [2] := by
  constructor
  · intro hcontra
    have h2 : (some "cached" : Option String) = some "ai_enhanced" := by
      calc (some "cached" : Option String)
          = (evaluateResponse (evaluateResponse emptyEvaluator "Q" "A" .basic
              .providerError analysis0 1).2 "Q" "A" .basic .providerError
              analysis0 1).1.evaluationMethod := by rfl
        _ = (evaluateResponse emptyEvaluator "Q" "A" .basic .providerError
              analysis0 1).1.evaluationMethod := by rw [hcontra]
        _ = some "ai_enhanced" := by rfl
    simp at h2
  · norm_num [processResponse, sampleStartedSession, failingInputs,
      sampleBank, q0, evaluateResponse, emptyEvaluator, EvaluatorState.lookup,
      evaluateExcelResponse, llmFallbackEvaluation, llmBaseScore, enhanceEvaluation,
      calculateScoreAdjustments, applyAdjustment, calculateConfidence, boolScore,
      analysis0, updateQuestionStats, ExcelQuestion.updateUsageStats,
      adjustDifficulty, lastThree, listMean, shouldContinueInterview,
      getAdaptiveQuestion, adaptiveTargetDifficulty, getRandomQuestion, tryOffsetQuestion,
      difficultyAtIndex, QuestionDifficulty.index, QuestionDifficulty.demote,
      endInterview, generateFinalAssessment, calculatePerformanceStatistics,
      determineSkillLevel, determineHireRecommendation, defaultAssessment,
      round2, pyRoundInt, listMin, listMax, sampleVariance, ProcessResult.isError]

/-- C4 amended: re-evaluating the byte-identical triple is a cache hit that
returns the first evaluation's content with `evaluation_method` set to
"cached" and no `evaluation_time` (so sub-scores, overall score and feedback
coincide but the dicts are not identical), while `process_response`
increments the question's usage counters on EVERY processed submission,
including byte-identical repeats. -/
theorem claim_C4_amended :
    (∀ (st : EvaluatorState) (questionText candidateResponse : String)
        (difficulty : QuestionDifficulty) (o1 o2 : ProviderOutcome)
        (a1 a2 : LocalAnalysis) (t1 t2 : ℚ),
      st.lookup (questionText, candidateResponse, difficulty) = none →
      (evaluateResponse (evaluateResponse st questionText candidateResponse
            difficulty o1 a1 t1).2 questionText candidateResponse difficulty
            o2 a2 t2).1 =
        { (evaluateResponse st questionText candidateResponse difficulty
            o1 a1 t1).1 with
            evaluationMethod := some "cached"
            evaluationTime := none } ∧
      (evaluateResponse st questionText candidateResponse difficulty
          o1 a1 t1).1.evaluationMethod = some "ai_enhanced") ∧
    (∀ (bank : List ExcelQuestion) (evaluator : EvaluatorState)
        (session : SessionState) (inputs : StepInputs) (q : ExcelQuestion),
      session.currentQuestion = some q →
      (processResponse bank evaluator session inputs).bank.map
          (fun p => p.timesUsed) =
        bank.map (fun p =>
          if p.id = q.id then p.timesUsed + 1 else p.timesUsed)) := by
  constructor
  · intro st questionText candidateResponse difficulty o1 o2 a1 a2 t1 t2 hmiss
    have hmissEq : evaluateResponse st questionText candidateResponse difficulty
        o1 a1 t1 =
        ({ enhanceEvaluation (evaluateExcelResponse o1 difficulty) a1 with
            evaluationTime := some t1
            evaluationMethod := some "ai_enhanced" },
         { cache := ((questionText, candidateResponse, difficulty),
             enhanceEvaluation (evaluateExcelResponse o1 difficulty) a1) ::
             st.cache }) := by
      simp [evaluateResponse, hmiss]
    have hhit : EvaluatorState.lookup
        { cache := ((questionText, candidateResponse, difficulty),
            enhanceEvaluation (evaluateExcelResponse o1 difficulty) a1) ::
            st.cache }
        (questionText, candidateResponse, difficulty) =
        some (enhanceEvaluation (evaluateExcelResponse o1 difficulty) a1) := by
      simp [EvaluatorState.lookup, List.find?]
    have htime : (enhanceEvaluation (evaluateExcelResponse o1 difficulty)
        a1).evaluationTime = none := by
      rw [enhanceEvaluation_evaluationTime, evaluateExcelResponse_evaluationTime]
    constructor
    · rw [hmissEq]
      dsimp only
      simp only [evaluateResponse, hhit]
      generalize hE : enhanceEvaluation (evaluateExcelResponse o1 difficulty) a1 = E
        at htime ⊢
      cases E
      simp_all
    · rw [hmissEq]
  · intro bank evaluator session inputs q h
    simp only [processResponse, h]
    split
    all_goals try split
    all_goals simp [endInterview, updateQuestionStats_timesUsed]

/-- C4 witness: the amended cache-hit behaviour at a concrete repeated
triple with an initially empty cache. -/
theorem claim_C4_witness :
    (evaluateResponse (evaluateResponse emptyEvaluator "Q" "A" .basic
          .providerError analysis0 1).2 "Q" "A" .basic .malformedJson
          analysis0 2).1 =
      { (evaluateResponse emptyEvaluator "Q" "A" .basic .providerError
          analysis0 1).1 with
          evaluationMethod := some "cached"
          evaluationTime := none } :=
  ((claim_C4_amended.1 emptyEvaluator "Q" "A" .basic .providerError
      .malformedJson analysis0 analysis0 1 2 rfl).1)

/-! ## Claim C6: provider failure falls back and the interview completes -/

/-- C6: on provider error, JSON parse failure, or a missing required field,
`evaluate_excel_response` returns the fallback evaluation without raising,
whose five sub-scores all equal the per-difficulty baseline; and a concrete
interview whose provider calls all fail still runs to completion with a
final assessment attached. -/
theorem claim_C6 :
    (∀ difficulty : QuestionDifficulty,
      evaluateExcelResponse .providerError difficulty =
        llmFallbackEvaluation difficulty) ∧
    (∀ difficulty : QuestionDifficulty,
      evaluateExcelResponse .malformedJson difficulty =
        llmFallbackEvaluation difficulty) ∧
    (∀ (difficulty : QuestionDifficulty) (p : ParsedEvaluation),
      p.missingRequiredField = true →
        evaluateExcelResponse (.parsed p) difficulty =
          llmFallbackEvaluation difficulty) ∧
    (∀ difficulty : QuestionDifficulty,
      (llmFallbackEvaluation difficulty).technicalAccuracy = llmBaseScore difficulty ∧
      (llmFallbackEvaluation difficulty).communicationClarity = llmBaseScore difficulty ∧
      (llmFallbackEvaluation difficulty).problemSolvingApproach = llmBaseScore difficulty ∧
      (llmFallbackEvaluation difficulty).completeness = llmBaseScore difficulty ∧
      (llmFallbackEvaluation difficulty).efficiency = llmBaseScore difficulty) ∧
    ((processResponse sampleBank emptyEvaluator sampleStartedSession
        failingInputs).session.status = InterviewStatus.completed ∧
      ((processResponse sampleBank emptyEvaluator sampleStartedSession
          failingInputs).session.finalAssessment).map
        (fun assessment => assessment.totalQuestions) = some 1 ∧
      ((processResponse sampleBank emptyEvaluator sampleStartedSession
          failingInputs).session.finalAssessment).map
        (fun assessment => assessment.skillLevelAssessment) =
        some SkillAssessment.intermediate ∧
      (processResponse sampleBank emptyEvaluator sampleStartedSession
        failingInputs).result.isError = false) := by
  refine ⟨fun _ => rfl, fun _ => rfl, ?_, fun _ => ⟨rfl, rfl, rfl, rfl, rfl⟩, ?_, ?_, ?_, ?_⟩
  · intro difficulty p hmiss
    simp [evaluateExcelResponse, hmiss]
  all_goals
    norm_num [processResponse, sampleStartedSession, failingInputs,
      sampleBank, q0, evaluateResponse, emptyEvaluator, EvaluatorState.lookup,
      evaluateExcelResponse, llmFallbackEvaluation, llmBaseScore, enhanceEvaluation,
      calculateScoreAdjustments, applyAdjustment, calculateConfidence, boolScore,
      analysis0, updateQuestionStats, ExcelQuestion.updateUsageStats,
      adjustDifficulty, lastThree, listMean, shouldContinueInterview,
      getAdaptiveQuestion, adaptiveTargetDifficulty, getRandomQuestion, tryOffsetQuestion,
      difficultyAtIndex, QuestionDifficulty.index, QuestionDifficulty.demote,
      endInterview, generateFinalAssessment, calculatePerformanceStatistics,
      determineSkillLevel, determineHireRecommendation, defaultAssessment,
      round2, pyRoundInt, listMin, listMax, sampleVariance, ProcessResult.isError]

/-- C6 witness: the missing-field fallback at a concrete provider response
lacking the efficiency score. -/
theorem claim_C6_witness :
    evaluateExcelResponse (.parsed parsedMissingEfficiency) .basic =
      llmFallbackEvaluation .basic :=
  claim_C6.2.2.1 .basic parsedMissingEfficiency rfl

/-! ## Claim C10: the consistency statistic makes its thresholds vacuous -/

/-- C10: the consistency statistic equals 100 minus min(stdev, 25) (100
outright with fewer than two scores), hence always lies in [75, 100]; since
every consistency threshold in the hire rule is at most 70, the
recommendation does not depend on the consistency value within its
attainable range. -/
theorem claim_C10 :
    (∀ (responses : List ResponseRecord) (stdevScores : ℚ),
      0 ≤ stdevScores →
      stdevScores ^ 2 =
        sampleVariance (responses.map (fun r => r.evaluation.overallScore)) →
      75 ≤ (calculatePerformanceStatistics responses stdevScores).consistency ∧
      (calculatePerformanceStatistics responses stdevScores).consistency ≤ 100 ∧
      (responses.length < 2 →
        (calculatePerformanceStatistics responses stdevScores).consistency = 100)) ∧
    (∀ (score c c' trend : ℚ), 75 ≤ c → 75 ≤ c' →
      determineHireRecommendation score c trend =
        determineHireRecommendation score c' trend) := by
  constructor
  · intro responses stdevScores hsd _hvar
    simp only [calculatePerformanceStatistics]
    set sdUsed : ℚ :=
      if (responses.map (fun r => r.evaluation.overallScore)).length > 1
      then stdevScores else 0 with hsdUsed
    have hsd0 : 0 ≤ sdUsed := by
      rw [hsdUsed]
      split <;> simp [hsd]
    have hlow : (75 : ℚ) ≤ 100 - min sdUsed 25 := by
      have := min_le_right sdUsed 25
      linarith
    have hhigh : 100 - min sdUsed 25 ≤ (100 : ℚ) := by
      have : (0 : ℚ) ≤ min sdUsed 25 := le_min hsd0 (by norm_num)
      linarith
    have hb := round2_bounds (a := 75) (b := 100)
      (by exact_mod_cast hlow) (by exact_mod_cast hhigh)
    refine ⟨by exact_mod_cast hb.1, by exact_mod_cast hb.2, ?_⟩
    intro hlen
    have hfalse : ¬((responses.map (fun r => r.evaluation.overallScore)).length > 1) := by
      simp only [List.length_map]
      omega
    have : sdUsed = 0 := by rw [hsdUsed, if_neg hfalse]
    rw [this]
    have : min (0 : ℚ) 25 = 0 := min_eq_left (by norm_num)
    rw [this]
    norm_num
    exact_mod_cast round2_intCast 100
  · intro score c c' trend hc hc'
    simp only [determineHireRecommendation,
      eq_true (show c ≥ 70 by linarith), eq_true (show c' ≥ 70 by linarith),
      eq_true (show c ≥ 60 by linarith), eq_true (show c' ≥ 60 by linarith),
      eq_true (show c ≥ 50 by linarith), eq_true (show c' ≥ 50 by linarith),
      and_true, true_or, true_and]

/-- C10 witness: the consistency of a single-response session is exactly
100, and a concrete recommendation is unchanged between consistency 75 and
100. -/
theorem claim_C10_witness :
    (calculatePerformanceStatistics
        [{ questionId := "basic_001", questionText := "q",
           candidateResponse := "a", evaluation := aiEval0,
           responseTime := 0 }] 0).consistency = 100 ∧
      determineHireRecommendation 80 75 0 = determineHireRecommendation 80 100 0 := by
  constructor
  · exact (claim_C10.1 _ 0 le_rfl (by
      simp [sampleVariance])).2.2 (by norm_num)
  · exact claim_C10.2 80 75 100 0 (by norm_num) (by norm_num)

/-! ## Claim C8: no repeated questions within a session -/

/-- Any question returned by `get_random_question` passed an exclusion list
has an id outside that list. -/
theorem getRandomQuestion_not_excluded {questions : List ExcelQuestion}
    {difficulty : Option QuestionDifficulty} {excludeIds : List String}
    {choice : ℕ} {q : ExcelQuestion}
    (h : getRandomQuestion questions difficulty excludeIds choice = some q) :
    q.id ∉ excludeIds := by
  simp only [getRandomQuestion] at h
  split_ifs at h
  have hmem := List.getElem?_mem h
  rw [List.mem_filter] at hmem
  have hpred := hmem.2
  simp only [Bool.and_eq_true, Bool.not_eq_true'] at hpred
  simpa using hpred.2

/-- Any question returned by an adjacent-tier attempt has an id outside the
exclusion list. -/
theorem tryOffsetQuestion_not_excluded {questions : List ExcelQuestion}
    {askedQuestionIds : List String} {choice : ℕ} {newIndex : ℤ}
    {q : ExcelQuestion}
    (h : tryOffsetQuestion questions askedQuestionIds choice newIndex = some q) :
    q.id ∉ askedQuestionIds := by
  simp only [tryOffsetQuestion] at h
  split at h
  · exact getRandomQuestion_not_excluded h
  · exact absurd h (by simp)

/-- `get_adaptive_question` passes the asked-id list as the exclusion list in
every branch, so any question it returns is not yet asked. -/
theorem getAdaptiveQuestion_not_asked {questions : List ExcelQuestion}
    {currentDifficulty : QuestionDifficulty} {previousScores : List ℚ}
    {askedQuestionIds : List String} {choice : ℕ} {q : ExcelQuestion}
    (h : getAdaptiveQuestion questions currentDifficulty previousScores
      askedQuestionIds choice = some q) :
    q.id ∉ askedQuestionIds := by
  simp only [getAdaptiveQuestion] at h
  repeat' split at h
  all_goals first
    | (cases h; exact getRandomQuestion_not_excluded (by assumption))
    | (cases h; exact tryOffsetQuestion_not_excluded (by assumption))
    | exact tryOffsetQuestion_not_excluded h

/-- One `process_response` step either leaves the asked-id list unchanged or
appends the id of a question that the adaptive selector drew outside it. -/
theorem processResponse_questionsAsked (bank : List ExcelQuestion)
    (evaluator : EvaluatorState) (session : SessionState) (inputs : StepInputs) :
    (processResponse bank evaluator session inputs).session.questionsAsked =
        session.questionsAsked ∨
      ∃ q : ExcelQuestion, q.id ∉ session.questionsAsked ∧
        (processResponse bank evaluator session inputs).session.questionsAsked =
          session.questionsAsked ++ [q.id] := by
  cases hq : session.currentQuestion with
  | none => left; simp [processResponse, hq]
  | some currentQuestion =>
    simp only [processResponse, hq]
    split
    · split
      · next nq heq =>
        right
        exact ⟨nq, getAdaptiveQuestion_not_asked heq, rfl⟩
      · left; simp [endInterview]
    · left; simp [endInterview]

/-- C8: for every reachable orchestrator state, the ordered list of
asked-question ids contains no duplicates. -/
theorem claim_C8 (w : WorldState) (h : ReachableWorld w) :
    w.session.questionsAsked.Nodup := by
  induction h with
  | start bank evaluator skillLevel choice s hs =>
    simp only [startInterview] at hs
    split at hs
    · cases hs
      simp
    · cases hs
  | step w inputs hw ih =>
    rcases processResponse_questionsAsked w.bank w.evaluator w.session inputs with
      heq | ⟨q, hnotin, heq⟩
    · dsimp only
      rw [heq]
      exact ih
    · dsimp only
      rw [heq, List.nodup_append]
      refine ⟨ih, List.nodup_singleton _, ?_⟩
      intro x hx hmem
      simp only [List.mem_singleton] at hmem
      subst hmem
      exact hnotin hx

/-- C8 witness: the invariant at the concrete freshly started session. -/
theorem claim_C8_witness :
    (WorldState.mk sampleStartedSession emptyEvaluator
        sampleBank).session.questionsAsked.Nodup :=
  claim_C8 _ (ReachableWorld.start sampleBank emptyEvaluator .basic 0
    sampleStartedSession (by
      norm_num [startInterview, sampleBank, sampleStartedSession,
        getAdaptiveQuestion, adaptiveTargetDifficulty, getRandomQuestion, q0]))

end ExcelInterviewer
